import Mathlib

/-!
Shallow embedding of `src/solver/restart.rs` (splr restart-control subsystem).

Rust `f64` values that are always finite in this module (EMA estimates,
thresholds, sums, growth factors) are modelled as `ℚ`; the two `trend()`
functions that can produce IEEE non-finite values through division are given
codomain `Fl`, a small float model with NaN and infinities, so that the
NaN-related behavior of `f64::max` is represented faithfully.
`as usize` casts of nonnegative floats truncate toward zero, and saturate at 0
for negative values; `Rat.floor` followed by `Int.toNat` has exactly this
behavior, and is used wherever the source casts `f64` to `usize`.
-/

/-- Model of an IEEE `f64` result that may be NaN or infinite. Finite values
carry an exact rational. -/
inductive Fl where
  | nan : Fl
  | pinf : Fl
  | ninf : Fl
  | num : ℚ → Fl
deriving DecidableEq, Repr

/-- IEEE division of two finite values (the divisor's zero is `+0` here, which
matches this module: every value divided by is produced from nonnegative
inputs). `0/0` is NaN, `x/0` is a signed infinity. -/
def fdiv (a b : ℚ) : Fl :=
  if b = 0 then
    if a = 0 then Fl.nan else if 0 < a then Fl.pinf else Fl.ninf
  else Fl.num (a / b)

/-- Rust `f64::max`: returns the other operand when one is NaN. -/
def fmax : Fl → Fl → Fl
  | Fl.nan, b => b
  | a, Fl.nan => a
  | Fl.pinf, _ => Fl.pinf
  | _, Fl.pinf => Fl.pinf
  | Fl.ninf, b => b
  | a, Fl.ninf => a
  | Fl.num a, Fl.num b => Fl.num (max a b)

/-- Modelled from the spec: the single-window decayed average `Ema` lives in
`types.rs`, which is not under `src/`. Per spec section 3 the estimate starts
at zero and `update(x)` folds a new sample in with weight inversely
proportional to the window length. -/
structure Ema where
  val : ℚ
  len : ℚ
deriving DecidableEq, Repr

/-- Modelled from the spec: fold one sample into the decayed average. -/
def Ema.update (e : Ema) (x : ℚ) : Ema :=
  { e with val := e.val + (x - e.val) / e.len }

/-- Modelled from the spec: current single-window estimate. -/
def Ema.get (e : Ema) : ℚ := e.val

/-- Modelled from the spec: the dual fast/slow decayed average `Ema2` lives in
`types.rs`, which is not under `src/`. Both estimates start at zero; `trend()`
is the fast/slow ratio, defined as 0 in the degenerate `slow = 0` case per
spec section 7. -/
structure Ema2 where
  fast : ℚ
  slow : ℚ
  flen : ℚ
  slen : ℚ
deriving DecidableEq, Repr

/-- Modelled from the spec: fold one sample into both windows. -/
def Ema2.update (e : Ema2) (x : ℚ) : Ema2 :=
  { e with
    fast := e.fast + (x - e.fast) / e.flen
    slow := e.slow + (x - e.slow) / e.slen }

/-- Modelled from the spec: the fast-window estimate. -/
def Ema2.get (e : Ema2) : ℚ := e.fast

/-- Modelled from the spec: fast/slow ratio, 0 when the slow estimate is 0. -/
def Ema2.trend (e : Ema2) : ℚ :=
  if e.slow = 0 then 0 else e.fast / e.slow

/-- `RestarterModule`: submodule index used to dispatch `Restarter::update`. -/
inductive RestarterModule where
  | Counter : RestarterModule
  | ASG : RestarterModule
  | LBD : RestarterModule
  | Luby : RestarterModule
  | Reset : RestarterModule
deriving DecidableEq, Repr

/-- `RestartMode`: reporting tag returned by `exports`. -/
inductive RestartMode where
  | Dynamic : RestartMode
  | Luby : RestartMode
  | Stabilize : RestartMode
deriving DecidableEq, Repr

/-- `ProgressASG`: assignment-trail evaluator used for blocking restart. -/
structure ProgressASG where
  enable : Bool
  asg : ℕ
  ema : Ema
  threshold : ℚ
deriving DecidableEq, Repr

/-- `ProgressASG::update` (via `EmaIF`): store the trail size and feed it into
the average. -/
def ProgressASG.update (p : ProgressASG) (n : ℕ) : ProgressASG :=
  { p with asg := n, ema := p.ema.update (n : ℚ) }

/-- `ProgressASG::get`. -/
def ProgressASG.get (p : ProgressASG) : ℚ := p.ema.get

/-- `ProgressASG::trend`: `asg / ema.get()` as an IEEE division. -/
def ProgressASG.trend (p : ProgressASG) : Fl := fdiv (p.asg : ℚ) p.ema.get

/-- `ProgressASG::is_active`: `enable && threshold * ema.get() < asg`. -/
def ProgressASG.is_active (p : ProgressASG) : Bool :=
  p.enable && decide (p.threshold * p.ema.get < (p.asg : ℚ))

/-- `ProgressASG::shift` has an empty body. -/
def ProgressASG.shift (p : ProgressASG) : ProgressASG := p

/-- `ProgressLBD`: learned-clause-quality evaluator used for forcing restart. -/
structure ProgressLBD where
  enable : Bool
  ema : Ema2
  num : ℕ
  sum : ℕ
  threshold : ℚ
deriving DecidableEq, Repr

/-- `ProgressLBD::update` (via `EmaIF`): count the sample, accumulate the sum,
feed the value into the dual average. -/
def ProgressLBD.update (p : ProgressLBD) (d : ℕ) : ProgressLBD :=
  { p with num := p.num + 1, sum := p.sum + d, ema := p.ema.update (d : ℚ) }

/-- `ProgressLBD::get`. -/
def ProgressLBD.get (p : ProgressLBD) : ℚ := p.ema.get

/-- `ProgressLBD::trend`:
`ema.trend().max(ema.get() * num as f64 / sum as f64)`. The division is IEEE:
with `sum = 0` and a zero numerator it yields NaN, which `f64::max` ignores. -/
def ProgressLBD.trend (p : ProgressLBD) : Fl :=
  fmax (Fl.num p.ema.trend) (fdiv (p.ema.get * (p.num : ℚ)) (p.sum : ℚ))

/-- `ProgressLBD::is_active`: `enable && threshold < ema.trend()`. -/
def ProgressLBD.is_active (p : ProgressLBD) : Bool :=
  p.enable && decide (p.threshold < p.ema.trend)

/-- `ProgressLBD::shift` has an empty body. -/
def ProgressLBD.shift (p : ProgressLBD) : ProgressLBD := p

/-- `LubySeries`: deterministic restart-schedule generator. -/
structure LubySeries where
  enable : Bool
  active : Bool
  index : ℕ
  next_restart : ℕ
  restart_inc : ℚ
  step : ℕ
deriving DecidableEq, Repr

/-- First loop of `LubySeries::next_step`: grow `size = 2*size + 1`,
incrementing `seq`, while `size < bound`. The fuel bounds the iteration count
of the Rust `while` loop: starting from `size = 1`, after `k` iterations
`size = 2^(k+1) - 1 ≥ k + 1`, so `bound` iterations always suffice. -/
def lubyGrow : ℕ → ℕ → ℕ → ℕ → ℕ × ℕ
  | 0, _, size, seq => (size, seq)
  | fuel + 1, bound, size, seq =>
    if size < bound then lubyGrow fuel bound (2 * size + 1) (seq + 1)
    else (size, seq)

/-- Second loop of `LubySeries::next_step`: while `size - 1 ≠ x`, halve
`size`, decrement `seq` and reduce `x` modulo the new `size`. The Rust loop
decrements the `usize` variable `seq` on every pass, so it makes at most
`seq + 1` passes before the program would abort on underflow; the fuel is set
to that bound at the call site. -/
def lubyShrink : ℕ → ℕ → ℕ → ℕ → ℕ
  | 0, _, seq, _ => seq
  | fuel + 1, size, seq, x =>
    if size - 1 = x then seq
    else lubyShrink fuel ((size - 1) / 2) (seq - 1) (x % ((size - 1) / 2))

/-- `LubySeries::next_step`: find the subsequence element for `index` and
scale `step` by `restart_inc ^ seq`. -/
def LubySeries.next_step (l : LubySeries) : ℕ :=
  if l.index = 0 then l.step
  else
    let gs := lubyGrow (l.index + 1) (l.index + 1) 1 0
    let seq := lubyShrink (gs.2 + 1) gs.1 gs.2 l.index
    ((l.restart_inc ^ seq * (l.step : ℚ)).floor).toNat

/-- `LubySeries::update` (via `EmaIF`): no-op while disabled; value 0 is the
schedule reset; otherwise set `active` from the threshold comparison. -/
def LubySeries.update (l : LubySeries) (index : ℕ) : LubySeries :=
  if !l.enable then l
  else if index = 0 then
    let l1 := { l with index := 0 }
    { l1 with next_restart := l1.next_step, active := false }
  else { l with active := decide (l.next_restart < index) }

/-- `LubySeries::shift`: clear `active`, advance `index`, recompute
`next_restart`. -/
def LubySeries.shift (l : LubySeries) : LubySeries :=
  let l1 := { l with active := false, index := l.index + 1 }
  { l1 with next_restart := l1.next_step }

/-- `LubySeries::is_active`: `enable && active`. -/
def LubySeries.is_active (l : LubySeries) : Bool := l.enable && l.active

/-- `GeometricStabilizer`: geometric mode-toggle. -/
structure GeometricStabilizer where
  enable : Bool
  active : Bool
  next_trigger : ℕ
  restart_inc : ℚ
  step : ℕ
deriving DecidableEq, Repr

/-- `GeometricStabilizer::update` (via `EmaIF`): when enabled and
`next_trigger <= now`, flip `active`, scale `step` by `restart_inc` (reset to
1000 when the result exceeds 10^8) and push `next_trigger` forward by the new
step. -/
def GeometricStabilizer.update (g : GeometricStabilizer) (now : ℕ) : GeometricStabilizer :=
  if g.enable && decide (g.next_trigger ≤ now) then
    let step1 := (((g.step : ℚ) * g.restart_inc).floor).toNat
    let step2 := if 100000000 < step1 then 1000 else step1
    { g with active := !g.active, step := step2, next_trigger := g.next_trigger + step2 }
  else g

/-- `GeometricStabilizer::is_active`: `enable && active`. -/
def GeometricStabilizer.is_active (g : GeometricStabilizer) : Bool := g.enable && g.active

/-- `Restarter`: the orchestrator. Field names follow the source;
`after_restart` is the spec's `conflicts_since_restart` and `restart_step` is
the spec's `min_restart_gap`. -/
structure Restarter where
  asg : ProgressASG
  lbd : ProgressLBD
  luby : LubySeries
  stb : GeometricStabilizer
  after_restart : ℕ
  next_restart : ℕ
  restart_step : ℕ
  num_block : ℕ
  num_stabilize : ℕ
deriving DecidableEq, Repr

/-- `Restarter::stabilizing`: read-only query of the stabilizer. -/
def Restarter.stabilizing (r : Restarter) : Bool := r.stb.is_active

/-- `Restarter::block_restart`. `&mut self` methods are embedded in
state-passing style: the returned pair is (result, updated state). The `true`
branch expands the `reset!` macro: zero `after_restart` and return `true`. -/
def Restarter.block_restart (r : Restarter) : Bool × Restarter :=
  if decide (r.after_restart < r.restart_step) || r.luby.enable then (false, r)
  else if r.asg.is_active then
    (true, { r with num_block := r.num_block + 1, after_restart := 0 })
  else (false, r)

/-- `Restarter::force_restart` in state-passing style; both `true` branches
expand the `reset!` macro. -/
def Restarter.force_restart (r : Restarter) : Bool × Restarter :=
  if r.luby.is_active then
    (true, { r with luby := r.luby.shift, after_restart := 0 })
  else if decide (r.after_restart < r.restart_step) then (false, r)
  else if r.lbd.is_active then
    (true, { r with lbd := r.lbd.shift, after_restart := 0 })
  else (false, r)

/-- `Restarter::update`: dispatch one signal to the submodules. The `Counter`
arm increments `after_restart`, then feeds the caller's `val` to the
stabilizer and the incremented `after_restart` to the Luby series. -/
def Restarter.update (r : Restarter) (kind : RestarterModule) (val : ℕ) : Restarter :=
  match kind with
  | RestarterModule.Counter =>
    let r1 := { r with after_restart := r.after_restart + 1 }
    let r2 := { r1 with stb := r1.stb.update val }
    { r2 with luby := r2.luby.update r2.after_restart }
  | RestarterModule.ASG => { r with asg := r.asg.update val }
  | RestarterModule.LBD => { r with lbd := r.lbd.update val }
  | RestarterModule.Luby => { r with luby := r.luby.update 0 }
  | RestarterModule.Reset => r

/-- `Restarter::exports` (`Export` impl): the telemetry tuple. The method
takes `&self`; it is embedded in the same state-passing style as the mutating
methods so that its frame effect is part of the statement. -/
def Restarter.exports (r : Restarter) :
    (RestartMode × ℕ × Fl × ℚ × Fl) × Restarter :=
  ((if r.stb.is_active then RestartMode.Stabilize
    else if r.luby.enable then RestartMode.Luby
    else RestartMode.Dynamic,
    r.num_block, r.asg.trend, r.lbd.get, r.lbd.trend), r)

/-- One externally visible orchestrator operation: a signal update, one of the
two decision queries, the stabilizer query, or the telemetry query. -/
inductive RestartOp where
  | upd : RestarterModule → ℕ → RestartOp
  | block : RestartOp
  | force : RestartOp
  | stab : RestartOp
  | tele : RestartOp
deriving DecidableEq, Repr

/-- Apply one operation. The boolean is `true` exactly when a restart decision
was accepted (`block_restart` or `force_restart` returned `true`); the
read-only queries and `update` never accept a decision. -/
def applyOp (r : Restarter) : RestartOp → Bool × Restarter
  | RestartOp.upd k v => (false, r.update k v)
  | RestartOp.block => r.block_restart
  | RestartOp.force => r.force_restart
  | RestartOp.stab => (false, r)
  | RestartOp.tele => (false, (r.exports).2)

/-- Trace of `next_restart` values: the current value, then the values after
each successive `shift()`. -/
def lubyTrace : LubySeries → ℕ → List ℕ
  | _, 0 => []
  | l, n + 1 => l.next_restart :: lubyTrace l.shift n

/-- Fold a list of quality samples into the evaluator, as successive
`ProgressLBD::update` calls. -/
def ProgressLBD.runUpdates (l : ProgressLBD) (xs : List ℕ) : ProgressLBD :=
  xs.foldl ProgressLBD.update l

/-- A freshly instantiated quality evaluator: zero samples, zero sum, both
EMA estimates zero; window lengths and threshold come from configuration. -/
def initLBD (en : Bool) (f s thr : ℚ) : ProgressLBD :=
  { enable := en, ema := { fast := 0, slow := 0, flen := f, slen := s }
    num := 0, sum := 0, threshold := thr }

attribute [local semireducible] Rat.mul Rat.add Rat.sub Rat.inv

/-- A quiescent trail evaluator (fresh instantiation). -/
def asgBase : ProgressASG := ⟨true, 0, ⟨0, 32⟩, 7/5⟩

/-- A trail evaluator whose activation test holds (trail far above average). -/
def asgHot : ProgressASG := ⟨true, 100, ⟨1, 32⟩, 7/5⟩

/-- A fresh quality evaluator. -/
def lbdBase : ProgressLBD := initLBD true 16 8192 (7/5)

/-- A quality evaluator whose activation test holds (trend 2 above 1.4). -/
def lbdHot : ProgressLBD := ⟨true, ⟨2, 1, 16, 8192⟩, 1, 1, 7/5⟩

/-- A disabled Luby series (the default before strategy adaptation). -/
def lubyOff : LubySeries := ⟨false, false, 0, 100, 2, 100⟩

/-- An enabled Luby series whose trigger has fired. -/
def lubyOn : LubySeries := ⟨true, true, 0, 1, 2, 1⟩

/-- The default geometric stabilizer. -/
def stbBase : GeometricStabilizer := ⟨true, false, 1000, 2, 1000⟩

/-- A stabilizer with a very low pending trigger. -/
def stbLow : GeometricStabilizer := ⟨true, false, 3, 2, 1000⟩

/-- C1: with `base_step = 1`, after a reset signal (`update 0`) and successive
`shift()` calls the observed `next_restart` values are exactly
1,1,2,1,1,2,4,1,1,2,1,1,2,4,8, whatever the `active`, `index` and
`next_restart` components held before the reset; the Luby series owns all the
state this depends on, so no other evaluator can influence it. -/
theorem C1_luby_next_threshold_sequence :
    ∀ (act : Bool) (idx nr : ℕ),
      lubyTrace (LubySeries.update ⟨true, act, idx, nr, 2, 1⟩ 0) 15
        = [1, 1, 2, 1, 1, 2, 4, 1, 1, 2, 1, 1, 2, 4, 8] := by
  intro act idx nr
  show lubyTrace ⟨true, false, 0, 1, 2, 1⟩ 15 = _
  decide

/-- C2: whenever the Luby schedule is enabled and triggered, `force_restart`
returns `true`, advances the schedule via `shift`, and zeroes
`after_restart`, with no condition on the minimum-gap check. -/
theorem C2_force_restart_precedence (r : Restarter)
    (hen : r.luby.enable = true) (hact : r.luby.active = true) :
    (r.force_restart).1 = true ∧
    (r.force_restart).2.after_restart = 0 ∧
    (r.force_restart).2.luby = r.luby.shift := by
  have h : r.luby.is_active = true := by
    simp [LubySeries.is_active, hen, hact]
  simp [Restarter.force_restart, h]

/-- The orchestrator used to witness C2: schedule enabled and triggered while
`after_restart = 0 < restart_step = 100`, so the minimum gap is unmet. -/
def rForce : Restarter := ⟨asgBase, lbdBase, lubyOn, stbBase, 0, 100, 100, 0, 0⟩

/-- Witness for C2 at a state that fails the minimum-gap test. -/
theorem C2_witness :
    (rForce.force_restart).1 = true ∧
    (rForce.force_restart).2.after_restart = 0 ∧
    (rForce.force_restart).2.luby = rForce.luby.shift :=
  C2_force_restart_precedence rForce rfl rfl

/-- C3: whenever `after_restart < restart_step`, `block_restart` returns
`false`, and `force_restart` returns `false` as long as the Luby schedule is
not active — for every state of the trail and quality evaluators. -/
theorem C3_min_gap_blocks (r : Restarter)
    (hgap : r.after_restart < r.restart_step)
    (hluby : r.luby.is_active = false) :
    (r.block_restart).1 = false ∧ (r.force_restart).1 = false := by
  constructor
  · simp [Restarter.block_restart, hgap]
  · simp [Restarter.force_restart, hluby, hgap]

/-- The orchestrator used to witness C3: both statistical evaluators are in
activated states, yet the unmet gap forces both decisions to `false`. -/
def rGap : Restarter := ⟨asgHot, lbdHot, lubyOff, stbBase, 0, 100, 100, 0, 0⟩

/-- Witness for C3 at a state whose evaluators are both active. -/
theorem C3_witness :
    (rGap.block_restart).1 = false ∧ (rGap.force_restart).1 = false :=
  C3_min_gap_blocks rGap (by decide) rfl

/-- C4 counterexample: a `Counter` signal with value 5 at `after_restart = 0`
leaves the stabilizer in a state different from the one the claim requires
(the claim demands that the stabilizer observe the freshly incremented
counter, i.e. 1): the code feeds the caller's raw value 5, which trips the
trigger at 3, while the incremented counter 1 would not. -/
theorem C4_counterexample :
    ¬ ((Restarter.update ⟨asgBase, lbdBase, lubyOff, stbLow, 0, 100, 100, 0, 0⟩
          RestarterModule.Counter 5).stb
        = GeometricStabilizer.update stbLow (0 + 1)) := by decide

/-- C4 amended: a `Counter` signal increments `after_restart` by exactly 1,
feeds the caller-supplied value into the stabilizer's `update`, and feeds the
freshly incremented `after_restart` into the Luby series' `update`. -/
theorem C4_update_counter_amended (r : Restarter) (v : ℕ) :
    (r.update RestarterModule.Counter v).after_restart = r.after_restart + 1 ∧
    (r.update RestarterModule.Counter v).stb = r.stb.update v ∧
    (r.update RestarterModule.Counter v).luby = r.luby.update (r.after_restart + 1) :=
  ⟨rfl, rfl, rfl⟩

/-- Folding a list of samples adds their total to `sum`. -/
theorem runUpdates_sum (xs : List ℕ) : ∀ l : ProgressLBD,
    (ProgressLBD.runUpdates l xs).sum = l.sum + xs.sum := by
  induction xs with
  | nil => intro l; simp [ProgressLBD.runUpdates]
  | cons x xs ih =>
    intro l
    show (ProgressLBD.runUpdates (l.update x) xs).sum = _
    rw [ih]
    simp [ProgressLBD.update, List.sum_cons]
    omega

/-- A run of all-zero samples keeps both EMA estimates at zero. -/
theorem runUpdates_zero_ema (xs : List ℕ) : ∀ l : ProgressLBD,
    (∀ x ∈ xs, x = 0) → l.ema.fast = 0 → l.ema.slow = 0 →
    (ProgressLBD.runUpdates l xs).ema.fast = 0 ∧
      (ProgressLBD.runUpdates l xs).ema.slow = 0 := by
  induction xs with
  | nil => intro l _ hf hs; exact ⟨hf, hs⟩
  | cons x xs ih =>
    intro l hall hf hs
    have hx : x = 0 := hall x (by simp)
    subst hx
    show (ProgressLBD.runUpdates (l.update 0) xs).ema.fast = 0 ∧ _
    apply ih
    · intro y hy; exact hall y (by simp [hy])
    · simp [ProgressLBD.update, Ema2.update, hf]
    · simp [ProgressLBD.update, Ema2.update, hs]

/-- C5: for every evaluator state reachable from a fresh instantiation by a
run of `update` calls, if `sum` is 0 then `trend()` is exactly the finite
value 0 — in particular before the first sample, where the inner division is
0/0: the NaN it produces is discarded by `f64::max` and the dual average's
trend, 0 on an unseeded evaluator, is returned. -/
theorem C5_quality_trend_zero (en : Bool) (f s thr : ℚ) (xs : List ℕ)
    (h : (ProgressLBD.runUpdates (initLBD en f s thr) xs).sum = 0) :
    (ProgressLBD.runUpdates (initLBD en f s thr) xs).trend = Fl.num 0 := by
  have hsum0 : xs.sum = 0 := by
    have hx := runUpdates_sum xs (initLBD en f s thr)
    rw [h] at hx
    simp [initLBD] at hx
    omega
  have hall : ∀ x ∈ xs, x = 0 := by
    intro x hx
    exact Nat.eq_zero_of_le_zero (hsum0 ▸ List.single_le_sum (by simp) x hx)
  have hz := runUpdates_zero_ema xs (initLBD en f s thr) hall
    (by simp [initLBD]) (by simp [initLBD])
  simp [ProgressLBD.trend, Ema2.trend, Ema2.get, fdiv, fmax, hz.1, hz.2, h]

/-- Witness for C5: the freshly instantiated evaluator (zero samples). -/
theorem C5_witness :
    (ProgressLBD.runUpdates (initLBD true 16 8192 (7/5)) []).trend = Fl.num 0 :=
  C5_quality_trend_zero true 16 8192 (7/5) [] rfl

/-- C6: the mode-toggle growth law. Whenever the stabilizer is enabled and
`next_trigger ≤ now`, one `update` flips `active`, scales `step` by
`restart_inc` (resetting to 1000 when the result exceeds 10^8) and advances
`next_trigger` by the new step; instantiated twice from the default state it
produces exactly the ticks (1000 ↦ true, 2000, 3000) and
(3000 ↦ false, 4000, 7000). -/
theorem C6_mode_toggle_growth (g : GeometricStabilizer) (now : ℕ)
    (hen : g.enable = true) (htr : g.next_trigger ≤ now) :
    ((g.update now).active = !g.active ∧
      (g.update now).step =
        (if 100000000 < (((g.step : ℚ) * g.restart_inc).floor).toNat then 1000
         else (((g.step : ℚ) * g.restart_inc).floor).toNat) ∧
      (g.update now).next_trigger = g.next_trigger + (g.update now).step) ∧
    ((stbBase.update 1000).active = true ∧ (stbBase.update 1000).step = 2000 ∧
      (stbBase.update 1000).next_trigger = 3000 ∧
      ((stbBase.update 1000).update 3000).active = false ∧
      ((stbBase.update 1000).update 3000).step = 4000 ∧
      ((stbBase.update 1000).update 3000).next_trigger = 7000) := by
  constructor
  · simp [GeometricStabilizer.update, hen, htr]
  · decide

/-- Witness for C6: the first tick of the default stabilizer. -/
theorem C6_witness : (stbBase.update 1000).active = !stbBase.active :=
  (C6_mode_toggle_growth stbBase 1000 rfl (by decide)).1.1

/-- C7: in a single qualifying `update` call the mode bit flips exactly once
(`active` becomes its negation), however far `now` has run past the trigger. -/
theorem C7_flip_exactly_once (g : GeometricStabilizer) (now : ℕ)
    (hen : g.enable = true) (htr : g.next_trigger ≤ now) :
    (g.update now).active = !g.active := by
  simp [GeometricStabilizer.update, hen, htr]

/-- Witness for C7: a counter that has skipped far past several successive
trigger thresholds still flips the bit only once. -/
theorem C7_witness : (stbBase.update 10000000).active = !stbBase.active :=
  C7_flip_exactly_once stbBase 10000000 rfl (by decide)

/-- `block_restart` zeroes `after_restart` exactly when it returns `true`, and
leaves the whole state untouched when it returns `false`. -/
theorem block_restart_spec (r : Restarter) :
    ((r.block_restart).1 = true → (r.block_restart).2.after_restart = 0) ∧
    ((r.block_restart).1 = false → (r.block_restart).2 = r) := by
  unfold Restarter.block_restart
  split
  · exact ⟨fun h => Bool.noConfusion h, fun _ => rfl⟩
  · split
    · exact ⟨fun _ => rfl, fun h => Bool.noConfusion h⟩
    · exact ⟨fun h => Bool.noConfusion h, fun _ => rfl⟩

/-- `force_restart` zeroes `after_restart` exactly when it returns `true`, and
leaves the whole state untouched when it returns `false`. -/
theorem force_restart_spec (r : Restarter) :
    ((r.force_restart).1 = true → (r.force_restart).2.after_restart = 0) ∧
    ((r.force_restart).1 = false → (r.force_restart).2 = r) := by
  unfold Restarter.force_restart
  split
  · exact ⟨fun _ => rfl, fun h => Bool.noConfusion h⟩
  · split
    · exact ⟨fun h => Bool.noConfusion h, fun _ => rfl⟩
    · split
      · exact ⟨fun _ => rfl, fun h => Bool.noConfusion h⟩
      · exact ⟨fun h => Bool.noConfusion h, fun _ => rfl⟩

/-- C8: across every single orchestrator operation, `after_restart` is zeroed
exactly when a restart decision is accepted (only `block_restart` or
`force_restart` can accept one); in every other operation it never decreases,
and a `Counter` signal increases it by exactly 1. -/
theorem C8_counter_reset_law (r : Restarter) (op : RestartOp) :
    ((applyOp r op).1 = true →
      (applyOp r op).2.after_restart = 0 ∧
        (op = RestartOp.block ∨ op = RestartOp.force)) ∧
    ((applyOp r op).1 = false →
      r.after_restart ≤ (applyOp r op).2.after_restart) ∧
    (∀ k v, op = RestartOp.upd k v →
      (applyOp r op).2.after_restart =
        (if k = RestarterModule.Counter then r.after_restart + 1
         else r.after_restart)) := by
  cases op with
  | upd k v =>
    refine ⟨fun h => Bool.noConfusion h, fun _ => ?_, fun k' v' h => ?_⟩
    · cases k <;> simp [applyOp, Restarter.update]
    · injection h with hk hv
      subst hk
      cases k <;> simp [applyOp, Restarter.update]
  | block =>
    refine ⟨fun h => ⟨(block_restart_spec r).1 h, Or.inl rfl⟩, ?_,
      fun k v h => RestartOp.noConfusion h⟩
    intro h
    show r.after_restart ≤ (r.block_restart).2.after_restart
    rw [(block_restart_spec r).2 h]
  | force =>
    refine ⟨fun h => ⟨(force_restart_spec r).1 h, Or.inr rfl⟩, ?_,
      fun k v h => RestartOp.noConfusion h⟩
    intro h
    show r.after_restart ≤ (r.force_restart).2.after_restart
    rw [(force_restart_spec r).2 h]
  | stab =>
    exact ⟨fun h => Bool.noConfusion h, fun _ => le_refl _,
      fun k v h => RestartOp.noConfusion h⟩
  | tele =>
    exact ⟨fun h => Bool.noConfusion h, fun _ => le_refl _,
      fun k v h => RestartOp.noConfusion h⟩

/-- Witness for C8: an accepted forced restart zeroes the counter. -/
theorem C8_witness : (applyOp rForce RestartOp.force).2.after_restart = 0 :=
  ((C8_counter_reset_law rForce RestartOp.force).1 rfl).1

/-- C9: `exports` mutates nothing: the state it returns is the input state,
and a second `exports` on that state yields the identical telemetry tuple. -/
theorem C9_exports_pure (r : Restarter) :
    (r.exports).2 = r ∧ ((r.exports).2.exports).1 = (r.exports).1 :=
  ⟨rfl, rfl⟩

/-- C10: while the Luby series is disabled, every `update` — the reset signal
0 included — leaves its state unchanged, and the orchestrator's schedule-reset
dispatch (`RestarterModule::Luby`) is a no-op on the whole orchestrator. -/
theorem C10_disabled_luby_frame (l : LubySeries) (v : ℕ)
    (h : l.enable = false) :
    l.update v = l ∧
      ∀ r : Restarter, r.luby = l → r.update RestarterModule.Luby 0 = r := by
  have h0 : l.update 0 = l := by simp [LubySeries.update, h]
  refine ⟨by simp [LubySeries.update, h], ?_⟩
  intro r hr
  show { r with luby := r.luby.update 0 } = r
  rw [hr, h0, ← hr]

/-- Witness for C10: a reset signal on the disabled default schedule. -/
theorem C10_witness : LubySeries.update lubyOff 0 = lubyOff :=
  (C10_disabled_luby_frame lubyOff 0 rfl).1
